import Mathlib

/-!
Verification development for the CUDA path tracer in `src/renderkernel.cu`.

The GPU code is shallowly embedded in Lean: float arithmetic is idealized as
exact rational arithmetic (`ℚ`), CUDA texture fetches become function fields of
a read-only scene record, the explicit byte-pointer traversal stack becomes a
`List Int` (pushing/popping an `int` at a time, with the bottom
`EntrypointSentinel` entry produced when the list is empty, exactly as the
array slot `traversalStack[0]` does), and the unbounded `while` loops of the
kernel become fuel-indexed recursive functions returning `Option` (where
`none` means the fuel ran out, never a result of the embedded program logic).

Bit-level floating point (the `0x80000000` leaf terminator test on the first
Woop component, and the `vmin/vmax` integer reinterpretation used by
`fmin_fmin` and friends) is idealized: the terminator test becomes an explicit
`isEnd` flag on the fetched texel, and the span helpers use ordinary
`min`/`max` on `ℚ`, matching the comments in the source
(`Tesla does max4(min, min, min, tmin)`).
-/

set_option linter.unusedVariables false

/-! ## Rational 3- and 4-vectors (`Vec3f` / `float4` of the CUDA source) -/

structure Vec3 where
  x : ℚ
  y : ℚ
  z : ℚ
  deriving DecidableEq

structure Vec4 where
  x : ℚ
  y : ℚ
  z : ℚ
  w : ℚ
  deriving DecidableEq

instance : Add Vec3 := ⟨fun a b => ⟨a.x + b.x, a.y + b.y, a.z + b.z⟩⟩

instance : Sub Vec3 := ⟨fun a b => ⟨a.x - b.x, a.y - b.y, a.z - b.z⟩⟩

/-- Componentwise product, the `Vec3f * Vec3f` of `cutil_math`/`linear_math`. -/
instance : Mul Vec3 := ⟨fun a b => ⟨a.x * b.x, a.y * b.y, a.z * b.z⟩⟩

/-- Scalar multiple, the `Vec3f * float` of the CUDA source. -/
instance : SMul ℚ Vec3 := ⟨fun s a => ⟨s * a.x, s * a.y, s * a.z⟩⟩

def dot3 (a b : Vec3) : ℚ := a.x * b.x + a.y * b.y + a.z * b.z

def cross3 (a b : Vec3) : Vec3 :=
  ⟨a.y * b.z - a.z * b.y, a.z * b.x - a.x * b.z, a.x * b.y - a.y * b.x⟩

/-- The greatest `r ≤ k` with `r * r ≤ n` (structural recursion on `k`). -/
def natSqrtBelow : Nat → Nat → Nat
  | 0, _ => 0
  | Nat.succ k, n => if (k + 1) * (k + 1) ≤ n then k + 1 else natSqrtBelow k n

/-- Integer square root, `⌊√n⌋`. -/
def natSqrt (n : Nat) : Nat := natSqrtBelow n n

/-- Exact stand-in for `sqrtf`: the rational with the integer square roots of
numerator and denominator; it agrees with the real square root on perfect
squares (all concrete inputs we evaluate it on). -/
def ratSqrt (q : ℚ) : ℚ := mkRat (Int.ofNat (natSqrt q.num.toNat)) (natSqrt q.den)

/-- `Vec3f::length()` of the CUDA source. -/
def length3 (v : Vec3) : ℚ := ratSqrt (dot3 v v)

/-- `Vec3f::normalize()` / `normalize(v)` of the CUDA source:
`v * rsqrtf(dot(v, v))`. -/
def normalize3 (v : Vec3) : Vec3 := (1 / length3 v) • v

def vec3Zero : Vec3 := ⟨0, 0, 0⟩

def vec3One : Vec3 := ⟨1, 1, 1⟩

/-! ## Constants of `renderkernel.cu` -/

/-- `#define EntrypointSentinel 0x76543210` (1985229328 in decimal). -/
def EntrypointSentinel : Int := 1985229328

/-- `#define RAY_MIN 1e-5f`. -/
def RAY_MIN : ℚ := 1 / 100000

/-- `#define RAY_MAX 1e20f`. -/
def RAY_MAX : ℚ := 10 ^ 20

/-- `float ooeps = exp2f(-80.0f)`. -/
def ooeps : ℚ := 1 / 2 ^ 80

/-- `copysignf(mag, s)` (the embedding has no negative zero, so the sign of
`s = 0` is positive, as for float `+0.0`). -/
def copysignQ (mag s : ℚ) : ℚ := if s < 0 then -mag else mag

/-! ## Scene data bound to the textures

`tex1Dfetch(triWoopTexture, addr)` returns a `float4` row of a Woop
triangle; the row whose first component has bit pattern `0x80000000`
(negative zero) is the end-of-leaf terminator, which the embedding records
as the `isEnd` flag of the fetched texel. -/

structure WoopTexel where
  isEnd : Bool
  x : ℚ
  y : ℚ
  z : ℚ
  w : ℚ
  deriving DecidableEq

/-- The four `float4` fetched at `nodeAddr .. nodeAddr+3` of
`bvhNodesTexture`: child 0 xy-bounds, child 1 xy-bounds, both children's
z-bounds, and the two child indices (`int2 cnodes = *(int2*)&tmp`). -/
structure BVHNodeData where
  n0 : Vec4
  n1 : Vec4
  nz : Vec4
  c0 : Int
  c1 : Int

structure BVHScene where
  bvhNodes : Int → BVHNodeData
  triWoop : Int → WoopTexel

/-! ## Ray setup of `intersectBVHandTriangles` -/

structure RayPre where
  origx : ℚ
  origy : ℚ
  origz : ℚ
  dirx : ℚ
  diry : ℚ
  dirz : ℚ
  tmin : ℚ
  idirx : ℚ
  idiry : ℚ
  idirz : ℚ
  oodx : ℚ
  oody : ℚ
  oodz : ℚ

/-- The `Initialize` block of `intersectBVHandTriangles`: fetch the ray,
substitute a signed tiny epsilon for near-zero direction components, invert,
and precompute `orig/dir`. -/
def rayPrecompute (rayorig raydir : Vec4) : RayPre :=
  let idirx := 1 / (if |raydir.x| > ooeps then raydir.x else copysignQ ooeps raydir.x)
  let idiry := 1 / (if |raydir.y| > ooeps then raydir.y else copysignQ ooeps raydir.y)
  let idirz := 1 / (if |raydir.z| > ooeps then raydir.z else copysignQ ooeps raydir.z)
  { origx := rayorig.x, origy := rayorig.y, origz := rayorig.z
    dirx := raydir.x, diry := raydir.y, dirz := raydir.z
    tmin := rayorig.w
    idirx := idirx, idiry := idiry, idirz := idirz
    oodx := rayorig.x * idirx, oody := rayorig.y * idiry, oodz := rayorig.z * idirz }

/-- `spanBeginKepler`: `fmax_fmax(fminf(a0,a1), fminf(b0,b1), fmin_fmax(c0,c1,d))`. -/
def spanBeginKepler (a0 a1 b0 b1 c0 c1 d : ℚ) : ℚ :=
  max (max (min a0 a1) (min b0 b1)) (max (min c0 c1) d)

/-- `spanEndKepler`: `fmin_fmin(fmaxf(a0,a1), fmaxf(b0,b1), fmax_fmin(c0,c1,d))`. -/
def spanEndKepler (a0 a1 b0 b1 c0 c1 d : ℚ) : ℚ :=
  min (min (max a0 a1) (max b0 b1)) (min (max c0 c1) d)

/-! ## Traversal state

`stackPtr` walks an `int` array whose bottom entry is `EntrypointSentinel`;
popping past the bottom keeps returning that bottom slot's value in the C
code's intended executions, which the list model reproduces by returning the
sentinel on an empty list. -/

structure TravState where
  stack : List Int
  leafAddr : Int
  nodeAddr : Int
  hitIndex : Int
  hitT : ℚ
  trinormal : Vec3
  deriving DecidableEq

/-- `nodeAddr = *(int*)stackPtr; stackPtr -= 4;` -/
def stackPop (st : List Int) : Int × List Int :=
  match st with
  | [] => (EntrypointSentinel, [])
  | a :: r => (a, r)

/-- The hit-`t` of Woop row `v00` against the precomputed ray:
`Oz = v00.w - orig·v00.xyz`, `invDz = 1 / (dir·v00.xyz)`, `t = Oz * invDz`. -/
def woopT (pre : RayPre) (v00 : WoopTexel) : ℚ :=
  let oz := v00.w - pre.origx * v00.x - pre.origy * v00.y - pre.origz * v00.z
  let invDz := 1 / (pre.dirx * v00.x + pre.diry * v00.y + pre.dirz * v00.z)
  oz * invDz

/-- Barycentric coordinate from Woop row `vr` at parameter `t`:
`O = vr.w + orig·vr.xyz`, `D = dir·vr.xyz`, coordinate `O + t*D`
(the shape shared by the `u` and `v` computations of the source). -/
def woopCoord (pre : RayPre) (vr : WoopTexel) (t : ℚ) : ℚ :=
  (vr.w + pre.origx * vr.x + pre.origy * vr.y + pre.origz * vr.z) +
    t * (pre.dirx * vr.x + pre.diry * vr.y + pre.dirz * vr.z)

def woopXYZ (vr : WoopTexel) : Vec3 := ⟨vr.x, vr.y, vr.z⟩

/-- The full intersection test of the triangle whose three Woop rows start at
`triAddr`, against the widest window `(tmin, hitT)`: first row is not the leaf
terminator, `tmin < t < hitT`, `0 ≤ u ≤ 1`, `0 ≤ v` and `u + v ≤ 1`. -/
def triPasses (scene : BVHScene) (pre : RayPre) (hitT : ℚ) (triAddr : Int) : Prop :=
  (scene.triWoop triAddr).isEnd = false ∧
  (pre.tmin < woopT pre (scene.triWoop triAddr) ∧
    woopT pre (scene.triWoop triAddr) < hitT) ∧
  (0 ≤ woopCoord pre (scene.triWoop (triAddr + 1)) (woopT pre (scene.triWoop triAddr)) ∧
    woopCoord pre (scene.triWoop (triAddr + 1)) (woopT pre (scene.triWoop triAddr)) ≤ 1) ∧
  (0 ≤ woopCoord pre (scene.triWoop (triAddr + 2)) (woopT pre (scene.triWoop triAddr)) ∧
    woopCoord pre (scene.triWoop (triAddr + 1)) (woopT pre (scene.triWoop triAddr)) +
      woopCoord pre (scene.triWoop (triAddr + 2)) (woopT pre (scene.triWoop triAddr)) ≤ 1)

instance (scene : BVHScene) (pre : RayPre) (hitT : ℚ) (triAddr : Int) :
    Decidable (triPasses scene pre hitT triAddr) := by
  unfold triPasses; infer_instance

/-- The `for (int triAddr = ~leafAddr;; triAddr += 3)` triangle loop of
`intersectBVHandTriangles`: test every Woop triangle of the leaf until the
terminator row; on a hit record `hitT`/`hitIndex`; in any-hit mode set
`nodeAddr = EntrypointSentinel` and break, otherwise also store the
geometric normal `cross(v11.xyz, v22.xyz)` and keep scanning. -/
def triLoop (scene : BVHScene) (pre : RayPre) (anyHit : Bool) :
    Nat → Int → TravState → Option TravState
  | 0, _, _ => none
  | Nat.succ fuel, triAddr, s =>
    let v00 := scene.triWoop triAddr
    if v00.isEnd then some s
    else
      let t := woopT pre v00
      if pre.tmin < t ∧ t < s.hitT then
        let v11 := scene.triWoop (triAddr + 1)
        let u := woopCoord pre v11 t
        if 0 ≤ u ∧ u ≤ 1 then
          let v22 := scene.triWoop (triAddr + 2)
          let v := woopCoord pre v22 t
          if 0 ≤ v ∧ u + v ≤ 1 then
            if anyHit then
              some { s with hitT := t, hitIndex := triAddr, nodeAddr := EntrypointSentinel }
            else
              triLoop scene pre anyHit fuel (triAddr + 3)
                { s with hitT := t, hitIndex := triAddr,
                         trinormal := cross3 (woopXYZ v11) (woopXYZ v22) }
          else triLoop scene pre anyHit fuel (triAddr + 3) s
        else triLoop scene pre anyHit fuel (triAddr + 3) s
      else triLoop scene pre anyHit fuel (triAddr + 3) s

/-- Child selection of the inner traversal loop: pop if neither child box is
hit; descend into the hit child if one is; if both are hit descend into the
nearer and push the farther (`if (c1min < c0min) swap2(nodeAddr, cnodes.y)`). -/
def innerChildStep (nd : BVHNodeData) (c0min c0max c1min c1max : ℚ)
    (s : TravState) : TravState :=
  if ¬ c0min ≤ c0max ∧ ¬ c1min ≤ c1max then
    let p := stackPop s.stack
    { s with nodeAddr := p.1, stack := p.2 }
  else if c0min ≤ c0max ∧ c1min ≤ c1max then
    if c1min < c0min then { s with nodeAddr := nd.c1, stack := nd.c0 :: s.stack }
    else { s with nodeAddr := nd.c0, stack := nd.c1 :: s.stack }
  else if c0min ≤ c0max then { s with nodeAddr := nd.c0 }
  else { s with nodeAddr := nd.c1 }

/-- `if (nodeAddr < 0 && leafAddr >= 0) { leafAddr = nodeAddr; pop }`:
postpone the first leaf found and keep descending. -/
def innerPostpone (s : TravState) : TravState :=
  if s.nodeAddr < 0 ∧ 0 ≤ s.leafAddr then
    let p := stackPop s.stack
    { s with leafAddr := s.nodeAddr, nodeAddr := p.1, stack := p.2 }
  else s

/-- The slab test of child 0 of node `nd`: `(c0min, c0max)`. -/
def childSpan0 (pre : RayPre) (hitT : ℚ) (nd : BVHNodeData) : ℚ × ℚ :=
  let c0lox := nd.n0.x * pre.idirx - pre.oodx
  let c0hix := nd.n0.y * pre.idirx - pre.oodx
  let c0loy := nd.n0.z * pre.idiry - pre.oody
  let c0hiy := nd.n0.w * pre.idiry - pre.oody
  let c0loz := nd.nz.x * pre.idirz - pre.oodz
  let c0hiz := nd.nz.y * pre.idirz - pre.oodz
  (spanBeginKepler c0lox c0hix c0loy c0hiy c0loz c0hiz pre.tmin,
   spanEndKepler c0lox c0hix c0loy c0hiy c0loz c0hiz hitT)

/-- The slab test of child 1 of node `nd`: `(c1min, c1max)`. -/
def childSpan1 (pre : RayPre) (hitT : ℚ) (nd : BVHNodeData) : ℚ × ℚ :=
  let c1lox := nd.n1.x * pre.idirx - pre.oodx
  let c1hix := nd.n1.y * pre.idirx - pre.oodx
  let c1loy := nd.n1.z * pre.idiry - pre.oody
  let c1hiy := nd.n1.w * pre.idiry - pre.oody
  let c1loz := nd.nz.z * pre.idirz - pre.oodz
  let c1hiz := nd.nz.w * pre.idirz - pre.oodz
  (spanBeginKepler c1lox c1hix c1loy c1hiy c1loz c1hiz pre.tmin,
   spanEndKepler c1lox c1hix c1loy c1hiy c1loz c1hiz hitT)

/-- The `while (nodeAddr >= 0 && nodeAddr != EntrypointSentinel)` inner node
loop: slab-test both children, select/push, postpone a found leaf and break
out (`if (!mask) break` is, for a single thread, `if (leafAddr < 0) break`). -/
def innerLoop (scene : BVHScene) (pre : RayPre) :
    Nat → TravState → Option TravState
  | 0, _ => none
  | Nat.succ fuel, s =>
    if 0 ≤ s.nodeAddr ∧ s.nodeAddr ≠ EntrypointSentinel then
      let nd := scene.bvhNodes s.nodeAddr
      let b0 := childSpan0 pre s.hitT nd
      let b1 := childSpan1 pre s.hitT nd
      let s2 := innerPostpone (innerChildStep nd b0.1 b0.2 b1.1 b1.2 s)
      if s2.leafAddr < 0 then some s2
      else innerLoop scene pre fuel s2
    else some s

/-- The `while (leafAddr < 0)` postponed-leaf loop: run the triangle loop at
`~leafAddr`, then `leafAddr = nodeAddr` and pop if that too is a leaf. -/
def leafLoop (scene : BVHScene) (pre : RayPre) (anyHit : Bool) :
    Nat → TravState → Option TravState
  | 0, _ => none
  | Nat.succ fuel, s =>
    if s.leafAddr < 0 then
      match triLoop scene pre anyHit (Nat.succ fuel) (-s.leafAddr - 1) s with
      | none => none
      | some s1 =>
        let s2 := { s1 with leafAddr := s1.nodeAddr }
        let s3 :=
          if s2.nodeAddr < 0 then
            let p := stackPop s2.stack
            { s2 with nodeAddr := p.1, stack := p.2 }
          else s2
        leafLoop scene pre anyHit fuel s3
    else some s

/-- The outer `while (nodeAddr != EntrypointSentinel)` traversal loop. -/
def outerLoop (scene : BVHScene) (pre : RayPre) (anyHit : Bool) :
    Nat → TravState → Option TravState
  | 0, _ => none
  | Nat.succ fuel, s =>
    if s.nodeAddr ≠ EntrypointSentinel then
      match innerLoop scene pre (Nat.succ fuel) s with
      | none => none
      | some s1 =>
        match leafLoop scene pre anyHit (Nat.succ fuel) s1 with
        | none => none
        | some s2 => outerLoop scene pre anyHit fuel s2
    else some s

structure TravResult where
  hitTriIdx : Int
  hitdistance : ℚ
  trinormal : Vec3
  deriving DecidableEq

/-- `intersectBVHandTriangles`: set up the ray, seed the stack with the
sentinel, start at the root with no postponed leaf, `hitIndex = -1` and
`hitT = raydir.w` (tmax), run the traversal, and return the recorded
triangle index and hit distance (`hitTriIdx = hitIndex; hitdistance = hitT`). -/
def intersectBVHandTriangles (scene : BVHScene) (rayorig raydir : Vec4)
    (anyHit : Bool) (fuel : Nat) : Option TravResult :=
  let pre := rayPrecompute rayorig raydir
  let s0 : TravState :=
    { stack := [], leafAddr := 0, nodeAddr := 0, hitIndex := -1,
      hitT := raydir.w, trinormal := vec3Zero }
  match outerLoop scene pre anyHit fuel s0 with
  | none => none
  | some s => some { hitTriIdx := s.hitIndex, hitdistance := s.hitT, trinormal := s.trinormal }

/-! ## The `MAT_REFL` branch of `renderKernel` with `alphax == 0.0f`

`nextdir = raydir - n * dot(n, raydir) * 2.0f; nextdir.normalize();
hitpoint += nl * RAY_MIN; mask *= ks * objcol;` and then the unconditional
`hitpoint += nl * RAY_MIN;` shared by both sub-branches. -/

def reflectDir (raydir n : Vec3) : Vec3 := raydir - (dot3 n raydir * 2) • n

structure MirrorOut where
  nextdir : Vec3
  hitpoint : Vec3
  mask : Vec3
  deriving DecidableEq

def matReflPerfectMirror (raydir n nl hitpoint mask objcol : Vec3) (ks : ℚ) : MirrorOut :=
  { nextdir := normalize3 (reflectDir raydir n)
    hitpoint := (hitpoint + RAY_MIN • nl) + RAY_MIN • nl
    mask := mask * (ks • objcol) }

/-! ## The microfacet-glass mask update of `renderKernel` (`MAT_GLASS`, `alphax != 0`)

`mask *= beta * objcol; if (!refl && !into) mask *= etaT * etaT;` where
`refl` and `beta` are outputs of `macrofacetGlass` (declared in
`reflection.cuh`, which is not part of the sources; they enter the model as
inputs). -/

def macrofacetGlassMaskUpdate (mask beta objcol : Vec3) (refl into : Bool) (etaT : ℚ) : Vec3 :=
  let m := mask * (beta * objcol)
  if refl = false ∧ into = false then (etaT * etaT) • m else m

/-- The relative index of refraction at the crossed interface, oriented as
destination over source medium: entering the object (`into`) crosses
air → object (`etaT / 1`), leaving it crosses object → air (`1 / etaT`). -/
def relativeIOR (into : Bool) (etaT : ℚ) : ℚ := if into then etaT else 1 / etaT

/-! ## The `MAT_SUBSURFACE` probe-sampling loop of `renderKernel`

The probe sampler `sampleBSSRDFprobeRaySoE` lives in `bssrdf.cuh` (not part
of the sources); per the spec it importance-samples an axis, a channel and a
radius and returns a probe ray with a finite maximum travel length, so it is
modelled as an input stream `sampler : Nat → ProbeSample` indexed by the
number of attempts made so far.  The scene traversal
(`intersectBVHandTriangles`, modelled above) together with the
`triMaterialTexture`/`triIndicesTexture` fetches and `textureFetching` is
abstracted, for this loop, as a query function `env` from the probe ray to
the data the loop body reads from it; the loop control, the acceptance test
and the recording (lines 804–857 of `renderkernel.cu`) are modelled
concretely. -/

structure ProbeSample where
  orig : Vec3
  dir : Vec3
  len : ℚ
  radius : ℚ

structure ProbeQueryOut where
  hitDistance : ℚ
  surfaceMat : Int
  smoothNormal : Vec3
  probeObjColor : Vec3

/-- An entry of the probe candidate arrays `probeHitPoint`,
`probeHitPointNormal`, `probeHitPointColor`.  The `rec…` fields are ghost
fields recording the values the acceptance test examined when this
candidate was stored; they are written only at the recording site. -/
structure ProbeCandidate where
  point : Vec3
  normal : Vec3
  color : Vec3
  recSurfaceMat : Int
  recRealRadius : ℚ
  recSampledRadius : ℚ
  recNormalDot : ℚ
  recProbeDir : Vec3
  deriving DecidableEq

structure ProbeState where
  hitCount : Nat
  cands : List ProbeCandidate
  probeRayOrig : Vec3
  probeRayDir : Vec3
  probeRayLength : ℚ
  probeRayVec : Vec3
  sampledRadius : ℚ
  rngCursor : Nat
  deriving DecidableEq

structure ProbeEntry where
  hitpoint : Vec3
  bssrdfMatId : Int
  useTexture : Bool

/-- `const unsigned int maxSurfaceHit = 1;` -/
def maxSurfaceHit : Nat := 1

/-- `const float maxRatio = 1.4f;` -/
def radiusRatioMax : ℚ := 7 / 5

/-- `const float minNormalDot = 0.5f;` -/
def normalDotMin : ℚ := 1 / 2

/-- One iteration of the `for (unsigned int i = 0; i < maxSurfaceHit; ++i)`
probe-walk: traversal query, early break when the remaining probe length is
exhausted (`if (probeRayLength < hitDistance) break;`), acceptance test
(`surfaceMat == bssrdfMatId && realRadius / sampledRadius < maxRatio &&
normalDot > minNormalDot`), recording, and re-launch bookkeeping.  Returns
the new state and whether the `break` was taken. -/
def probeInnerStep (env : Vec3 → Vec3 → ProbeQueryOut) (entry : ProbeEntry)
    (st : ProbeState) : ProbeState × Bool :=
  let q := env st.probeRayOrig st.probeRayDir
  if st.probeRayLength < q.hitDistance then (st, true)
  else
    let probeHitPointAny := st.probeRayOrig + q.hitDistance • st.probeRayDir
    let vec := probeHitPointAny - entry.hitpoint
    let realRadius := length3 vec
    let sm := normalize3 q.smoothNormal
    let normalDot := |dot3 sm st.probeRayDir|
    let st1 := { st with probeRayVec := vec }
    let cand : ProbeCandidate :=
      { point := probeHitPointAny
        normal := sm
        color := if entry.useTexture then q.probeObjColor else vec3One
        recSurfaceMat := q.surfaceMat
        recRealRadius := realRadius
        recSampledRadius := st.sampledRadius
        recNormalDot := normalDot
        recProbeDir := st.probeRayDir }
    let st2 :=
      if q.surfaceMat = entry.bssrdfMatId ∧
          realRadius / st.sampledRadius < radiusRatioMax ∧
          normalDot > normalDotMin then
        { st1 with cands := st1.cands ++ [cand], hitCount := st1.hitCount + 1 }
      else st1
    ({ st2 with probeRayLength := st2.probeRayLength - q.hitDistance,
                probeRayOrig := probeHitPointAny + RAY_MIN • st.probeRayDir }, false)

def probeInnerLoop (env : Vec3 → Vec3 → ProbeQueryOut) (entry : ProbeEntry) :
    Nat → ProbeState → ProbeState
  | 0, st => st
  | Nat.succ n, st =>
    let r := probeInnerStep env entry st
    if r.2 then r.1 else probeInnerLoop env entry n r.1

/-- The `for (int maxLoop = 100; hitCount == 0 && maxLoop > 0; --maxLoop)`
attempt loop: while no exit point has been accepted and attempts remain,
sample a fresh probe ray and walk it.  Returns the final state and the
number of attempts that were executed. -/
def probeAttemptLoop (env : Vec3 → Vec3 → ProbeQueryOut)
    (sampler : Nat → ProbeSample) (entry : ProbeEntry) :
    Nat → ProbeState → ProbeState × Nat
  | 0, st => (st, 0)
  | Nat.succ n, st =>
    if st.hitCount = 0 then
      let smp := sampler st.rngCursor
      let st1 :=
        { st with
          probeRayOrig := smp.orig
          probeRayDir := smp.dir
          probeRayLength := smp.len
          sampledRadius := smp.radius
          rngCursor := st.rngCursor + 1 }
      let st2 := probeInnerLoop env entry maxSurfaceHit st1
      let r := probeAttemptLoop env sampler entry n st2
      (r.1, r.2 + 1)
    else (st, 0)

def probeInitState : ProbeState :=
  { hitCount := 0, cands := [], probeRayOrig := vec3Zero, probeRayDir := vec3Zero,
    probeRayLength := 0, probeRayVec := vec3Zero, sampledRadius := 0, rngCursor := 0 }

def subsurfaceProbePhase (env : Vec3 → Vec3 → ProbeQueryOut)
    (sampler : Nat → ProbeSample) (entry : ProbeEntry) : ProbeState × Nat :=
  probeAttemptLoop env sampler entry 100 probeInitState

/-- `int nextPointIdx = rd(rdState) * hitCount;` — the C float-to-int cast
truncates toward zero, which on the nonnegative products involved equals the
floor. -/
def selectIdx (rdSel : ℚ) (hitCount : Nat) : Int := Int.floor (rdSel * (hitCount : ℚ))

def probeCandNull : ProbeCandidate :=
  { point := vec3Zero, normal := vec3Zero, color := vec3Zero, recSurfaceMat := 0,
    recRealRadius := 0, recSampledRadius := 0, recNormalDot := 0, recProbeDir := vec3Zero }

/-- The code after the attempt loop (lines 859–899): the no-exit-point
fallback `hitpoint += nl * RAY_MIN; mask *= beta * ks * objcol; break;`, or
candidate selection and the diffusion mask update, in which the outputs of
`calculateBSSRDFSoE` (`bssrdfBeta`) and the Fresnel exit factor `outS`
(computed from `FrD`/`FM1` of `reflection.cuh`, not part of the sources)
enter as inputs.  Returns the new path origin and mask. -/
def subsurfaceAfterProbe (st : ProbeState) (hitpoint mask nl beta objcol : Vec3)
    (ks kd : ℚ) (rdSel : ℚ) (bssrdfBeta : Vec3) (outS : ℚ) : Vec3 × Vec3 :=
  if st.hitCount = 0 then
    (hitpoint + RAY_MIN • nl, mask * ((ks • beta) * objcol))
  else
    let nextPointIdx := selectIdx rdSel st.hitCount
    let c := st.cands.getD nextPointIdx.toNat probeCandNull
    let m1 := mask * ((kd • ((st.hitCount : ℚ) • bssrdfBeta)) * c.color)
    (c.point + RAY_MIN • normalize3 c.normal, outS • m1)

/-! ## The throughput mask updates of `renderKernel`

One constructor per mask-updating site of the bounce loop; the parameters
are the values the site multiplies the mask by.  The `beta` weights of
`macrofacetReflection`, `fresnelBlend`, `macrofacetGlass`,
`microfacetSampling` and `calculateBSSRDFSoE`, and the Fresnel exit factor
`outS`, are computed in `reflection.cuh`/`bssrdf.cuh` (not part of the
sources) and enter as constructor arguments; `HomogeneousMedium` likewise
(`mediumScatter`, with the single-scattering albedo `rho`). -/

inductive BounceEvent where
  | diff (objcol : Vec3) (kd : ℚ)
  | reflMirror (objcol : Vec3) (ks : ℚ)
  | reflMicro (objcol beta : Vec3) (ks : ℚ)
  | diffReflSpec (beta : Vec3)
  | diffReflDiff (objcol : Vec3)
  | fresnelBlendEvt (beta : Vec3)
  | glassSpecular
  | glassMicro (objcol beta : Vec3) (refl into : Bool) (etaT : ℚ)
  | mediumBoundary
  | matNull
  | subsurfaceRefl (objcol beta : Vec3) (ks : ℚ)
  | subsurfaceFallback (objcol beta : Vec3) (ks : ℚ)
  | subsurfaceDiffusion (nextColor bssrdfBeta : Vec3) (hitCount : Nat) (kd outS : ℚ)
  | mediumScatter (rho : Vec3)

/-- The mask update each branch of the `switch (refltype)` performs
(`MAT_EMIT` returns without touching the mask; `MAT_NULL`, `MAT_MEDIUM` and
the perfect-specular `MAT_GLASS` branch leave it unchanged). -/
def maskUpdate (m : Vec3) (e : BounceEvent) : Vec3 :=
  match e with
  | .diff objcol kd => m * (kd • objcol)
  | .reflMirror objcol ks => m * (ks • objcol)
  | .reflMicro objcol beta ks => m * ((ks • beta) * objcol)
  | .diffReflSpec beta => m * beta
  | .diffReflDiff objcol => m * objcol
  | .fresnelBlendEvt beta => m * beta
  | .glassSpecular => m
  | .glassMicro objcol beta refl into etaT =>
      macrofacetGlassMaskUpdate m beta objcol refl into etaT
  | .mediumBoundary => m
  | .matNull => m
  | .subsurfaceRefl objcol beta ks => m * ((ks • beta) * objcol)
  | .subsurfaceFallback objcol beta ks => m * ((ks • beta) * objcol)
  | .subsurfaceDiffusion nextColor bssrdfBeta hitCount kd outS =>
      outS • (m * ((kd • ((hitCount : ℚ) • bssrdfBeta)) * nextColor))
  | .mediumScatter rho => m * rho

def nonneg3 (v : Vec3) : Prop := 0 ≤ v.x ∧ 0 ≤ v.y ∧ 0 ≤ v.z

instance (v : Vec3) : Decidable (nonneg3 v) := by unfold nonneg3; infer_instance

/-- The nonnegativity of the data each mask-updating site consumes: colors
are nonnegative, the sampling weights `beta`, the weights `kd`/`ks`, the
scattering albedo and the Fresnel exit factor are nonnegative.  For the
quantities computed outside the sources this is the spec's invariant for all
scattering models (throughput must remain non-negative per channel). -/
def eventOK (e : BounceEvent) : Prop :=
  match e with
  | .diff objcol kd => nonneg3 objcol ∧ 0 ≤ kd
  | .reflMirror objcol ks => nonneg3 objcol ∧ 0 ≤ ks
  | .reflMicro objcol beta ks => nonneg3 objcol ∧ nonneg3 beta ∧ 0 ≤ ks
  | .diffReflSpec beta => nonneg3 beta
  | .diffReflDiff objcol => nonneg3 objcol
  | .fresnelBlendEvt beta => nonneg3 beta
  | .glassSpecular => True
  | .glassMicro objcol beta _ _ _ => nonneg3 objcol ∧ nonneg3 beta
  | .mediumBoundary => True
  | .matNull => True
  | .subsurfaceRefl objcol beta ks => nonneg3 objcol ∧ nonneg3 beta ∧ 0 ≤ ks
  | .subsurfaceFallback objcol beta ks => nonneg3 objcol ∧ nonneg3 beta ∧ 0 ≤ ks
  | .subsurfaceDiffusion nextColor bssrdfBeta _ kd outS =>
      nonneg3 nextColor ∧ nonneg3 bssrdfBeta ∧ 0 ≤ kd ∧ 0 ≤ outS
  | .mediumScatter rho => nonneg3 rho

instance (e : BounceEvent) : Decidable (eventOK e) := by
  cases e <;> (dsimp only [eventOK]; infer_instance)

/-- `Vec3f mask = Vec3f(1.0f, 1.0f, 1.0f);` -/
def maskInit : Vec3 := vec3One

def maskAfter (events : List BounceEvent) : Vec3 := events.foldl maskUpdate maskInit

/-! ## The medium tracking of `renderKernel`

`const int airMedium = MEDIUM_NO; int medium = MEDIUM_NO;
int objMedium = MEDIUM_NO;` — `objMedium` has no other assignment anywhere
in the kernel, so it is a constant of the model.  The three toggle sites
(perfect glass, microfacet glass, `MAT_MEDIUM`) all have the shape
`if (airMedium != objMedium) medium = (medium == airMedium) ?
(sel ? airMedium : objMedium) : (sel ? objMedium : airMedium);` with
`sel = refl` for glass and `sel = !into` for `MAT_MEDIUM`. -/

def MEDIUM_NO : Int := -1

def airMediumConst : Int := MEDIUM_NO

def objMediumConst : Int := MEDIUM_NO

def mediumToggle (airMedium objMedium medium : Int) (sel : Bool) : Int :=
  if airMedium ≠ objMedium then
    if medium = airMedium then (if sel then airMedium else objMedium)
    else (if sel then objMedium else airMedium)
  else medium

inductive MediumEvent where
  | glassSpecularTog (refl : Bool)
  | glassMicroTog (refl : Bool)
  | matMediumTog (into : Bool)
  | other

def mediumStep (medium : Int) (e : MediumEvent) : Int :=
  match e with
  | .glassSpecularTog refl => mediumToggle airMediumConst objMediumConst medium refl
  | .glassMicroTog refl => mediumToggle airMediumConst objMediumConst medium refl
  | .matMediumTog into => mediumToggle airMediumConst objMediumConst medium (!into)
  | .other => medium

def mediumAfter (events : List MediumEvent) : Int := events.foldl mediumStep MEDIUM_NO

/-! ## Concrete data for the evaluation theorems -/

def endTexel : WoopTexel := ⟨true, 0, 0, 0, 0⟩

/-- A root node whose child 0 is the box `[-1,1]³` containing the demo
triangle (leaf index `-1`, so `~leafAddr = 0`) and whose child 1 is a box
at `x ∈ [10,20]` the demo ray misses. -/
def demoNode : BVHNodeData :=
  { n0 := ⟨-1, 1, -1, 1⟩, n1 := ⟨10, 20, -1, 1⟩, nz := ⟨-1, 1, -1, 1⟩, c0 := -1, c1 := 4 }

def demoTriRow (a : Int) : WoopTexel :=
  if a = 0 then ⟨false, 0, 0, 1, 5⟩
  else if a = 1 then ⟨false, 0, 0, 0, 3 / 10⟩
  else if a = 2 then ⟨false, 0, 0, 0, 3 / 10⟩
  else endTexel

def demoScene : BVHScene := { bvhNodes := fun _ => demoNode, triWoop := demoTriRow }

/-- A root node both of whose child boxes sit at `x ∈ [10,20]`, missed by the
demo ray, over a triangle texture that is all leaf terminators. -/
def demoNodeMiss : BVHNodeData :=
  { n0 := ⟨10, 20, -1, 1⟩, n1 := ⟨10, 20, -1, 1⟩, nz := ⟨-1, 1, -1, 1⟩, c0 := -1, c1 := -1 }

def sceneNoTri : BVHScene := { bvhNodes := fun _ => demoNodeMiss, triWoop := fun _ => endTexel }

def demoRayOrig : Vec4 := ⟨0, 0, 0, RAY_MIN⟩

def demoRayDir : Vec4 := ⟨0, 0, 1, RAY_MAX⟩

def demoPre : RayPre := rayPrecompute demoRayOrig demoRayDir

/-- A probe environment whose every query hits matching material `7` one
unit away, with an interpolated normal of length 4 along `z`. -/
def demoProbeEnv : Vec3 → Vec3 → ProbeQueryOut :=
  fun _ _ => { hitDistance := 1, surfaceMat := 7, smoothNormal := ⟨0, 0, 4⟩,
               probeObjColor := ⟨1, 0, 0⟩ }

/-- A probe environment whose every query hits far beyond any probe length. -/
def demoProbeEnvMiss : Vec3 → Vec3 → ProbeQueryOut :=
  fun _ _ => { hitDistance := 10 ^ 9, surfaceMat := 7, smoothNormal := ⟨0, 0, 4⟩,
               probeObjColor := ⟨1, 0, 0⟩ }

def demoSampler : Nat → ProbeSample :=
  fun _ => { orig := ⟨0, 0, 1⟩, dir := ⟨0, 0, -1⟩, len := 10, radius := 1 }

def demoEntry : ProbeEntry := { hitpoint := vec3Zero, bssrdfMatId := 7, useTexture := false }

/-- A traversal state about to scan a postponed leaf, used to evaluate the
triangle-loop theorems on concrete data. -/
def demoTravState : TravState :=
  { stack := [], leafAddr := -1, nodeAddr := EntrypointSentinel, hitIndex := -1,
    hitT := RAY_MAX, trinormal := vec3Zero }

/-- The traversal invariant behind claims C1 and C9: either no triangle has
been recorded and `hitT` still equals the initial `raydir.w` (tmax), or a
triangle has been recorded and `hitT` lies strictly between `tmin` and the
initial tmax. -/
def TravInv (tmin tmax0 : ℚ) (s : TravState) : Prop :=
  (s.hitIndex = -1 ∧ s.hitT = tmax0) ∨ (0 ≤ s.hitIndex ∧ tmin < s.hitT ∧ s.hitT < tmax0)

/-! ## Frame and invariant lemmas for the traversal -/

theorem innerChildStep_frame (nd : BVHNodeData) (c0min c0max c1min c1max : ℚ)
    (s : TravState) :
    (innerChildStep nd c0min c0max c1min c1max s).hitIndex = s.hitIndex ∧
    (innerChildStep nd c0min c0max c1min c1max s).hitT = s.hitT ∧
    (innerChildStep nd c0min c0max c1min c1max s).trinormal = s.trinormal := by
  unfold innerChildStep
  split_ifs <;> simp

theorem innerPostpone_frame (s : TravState) :
    (innerPostpone s).hitIndex = s.hitIndex ∧
    (innerPostpone s).hitT = s.hitT ∧
    (innerPostpone s).trinormal = s.trinormal := by
  unfold innerPostpone
  split_ifs <;> simp

theorem innerLoop_frame (scene : BVHScene) (pre : RayPre) :
    ∀ (fuel : Nat) (s s1 : TravState), innerLoop scene pre fuel s = some s1 →
      s1.hitIndex = s.hitIndex ∧ s1.hitT = s.hitT ∧ s1.trinormal = s.trinormal := by
  intro fuel
  induction fuel with
  | zero => intro s s1 h; simp [innerLoop] at h
  | succ n ih =>
    intro s s1 h
    simp only [innerLoop] at h
    split_ifs at h with hc hl
    · cases h
      refine ⟨?_, ?_, ?_⟩ <;>
        simp [(innerPostpone_frame _).1, (innerPostpone_frame _).2.1,
          (innerPostpone_frame _).2.2, (innerChildStep_frame _ _ _ _ _ _).1,
          (innerChildStep_frame _ _ _ _ _ _).2.1, (innerChildStep_frame _ _ _ _ _ _).2.2]
    · have h2 := ih _ _ h
      refine ⟨?_, ?_, ?_⟩ <;>
        simp [h2.1, h2.2.1, h2.2.2, (innerPostpone_frame _).1,
          (innerPostpone_frame _).2.1, (innerPostpone_frame _).2.2,
          (innerChildStep_frame _ _ _ _ _ _).1, (innerChildStep_frame _ _ _ _ _ _).2.1,
          (innerChildStep_frame _ _ _ _ _ _).2.2]
    · cases h; exact ⟨rfl, rfl, rfl⟩

theorem TravInv_hitT_le (tmin tmax0 : ℚ) (s : TravState) (h : TravInv tmin tmax0 s) :
    s.hitT ≤ tmax0 := by
  rcases h with ⟨_, h⟩ | ⟨_, _, h⟩
  · exact le_of_eq h
  · exact le_of_lt h

theorem triLoop_inv (scene : BVHScene) (pre : RayPre) (anyHit : Bool) (tmax0 : ℚ) :
    ∀ (fuel : Nat) (a : Int) (s s1 : TravState), 0 ≤ a → TravInv pre.tmin tmax0 s →
      triLoop scene pre anyHit fuel a s = some s1 → TravInv pre.tmin tmax0 s1 := by
  intro fuel
  induction fuel with
  | zero => intro a s s1 _ _ h; simp [triLoop] at h
  | succ n ih =>
    intro a s s1 ha hs h
    simp only [triLoop] at h
    split_ifs at h with h1 h2 h3 h4 h5
    · cases h; exact hs
    · cases h
      exact Or.inr ⟨ha, h2.1, lt_of_lt_of_le h2.2 (TravInv_hitT_le _ _ _ hs)⟩
    · refine ih (a + 3) _ _ (by omega) ?_ h
      exact Or.inr ⟨ha, h2.1, lt_of_lt_of_le h2.2 (TravInv_hitT_le _ _ _ hs)⟩
    · exact ih (a + 3) _ _ (by omega) hs h
    · exact ih (a + 3) _ _ (by omega) hs h
    · exact ih (a + 3) _ _ (by omega) hs h

theorem leafLoop_inv (scene : BVHScene) (pre : RayPre) (anyHit : Bool) (tmax0 : ℚ) :
    ∀ (fuel : Nat) (s s1 : TravState), TravInv pre.tmin tmax0 s →
      leafLoop scene pre anyHit fuel s = some s1 → TravInv pre.tmin tmax0 s1 := by
  intro fuel
  induction fuel with
  | zero => intro s s1 _ h; simp [leafLoop] at h
  | succ n ih =>
    intro s s1 hs h
    simp only [leafLoop] at h
    split_ifs at h with hleaf
    · cases htl : triLoop scene pre anyHit (Nat.succ n) (-s.leafAddr - 1) s with
      | none => rw [htl] at h; cases h
      | some sA =>
        rw [htl] at h
        have hA : TravInv pre.tmin tmax0 sA :=
          triLoop_inv scene pre anyHit tmax0 _ _ _ _ (by omega) hs htl
        refine ih _ _ ?_ h
        unfold TravInv at hA ⊢
        split_ifs <;> simpa using hA
    · cases h; exact hs

theorem outerLoop_inv (scene : BVHScene) (pre : RayPre) (anyHit : Bool) (tmax0 : ℚ) :
    ∀ (fuel : Nat) (s s1 : TravState), TravInv pre.tmin tmax0 s →
      outerLoop scene pre anyHit fuel s = some s1 → TravInv pre.tmin tmax0 s1 := by
  intro fuel
  induction fuel with
  | zero => intro s s1 _ h; simp [outerLoop] at h
  | succ n ih =>
    intro s s1 hs h
    simp only [outerLoop] at h
    split_ifs at h with hcond
    · split at h
      next hin => cases h
      next sA hin =>
        have hA : TravInv pre.tmin tmax0 sA := by
          have hf := innerLoop_frame scene pre _ _ _ hin
          unfold TravInv at hs ⊢
          rw [hf.1, hf.2.1]
          exact hs
        split at h
        next hlf => cases h
        next sB hlf =>
          exact ih _ _ (leafLoop_inv scene pre anyHit tmax0 _ _ _ hA hlf) h
    · cases h; exact hs

/-- Claim C1: in nearest-hit mode (`anyHit = false`), every returned hit
(`hitTriIdx ≠ -1`) has its `hitdistance` strictly between the ray's
`rayorig.w` (t_min) and `raydir.w` (t_max). -/
theorem C1_nearest_hit_distance_strictly_in_range (scene : BVHScene)
    (rayorig raydir : Vec4) (fuel : Nat) (r : TravResult)
    (h : intersectBVHandTriangles scene rayorig raydir false fuel = some r)
    (hhit : r.hitTriIdx ≠ -1) :
    rayorig.w < r.hitdistance ∧ r.hitdistance < raydir.w := by
  simp only [intersectBVHandTriangles] at h
  split at h
  next ho => cases h
  next s ho =>
    cases h
    have hInv := outerLoop_inv scene (rayPrecompute rayorig raydir) false raydir.w fuel _ _
      (Or.inl ⟨rfl, rfl⟩) ho
    rcases hInv with ⟨hidx, _⟩ | ⟨_, hlo, hhi⟩
    · exact absurd hidx hhit
    · have htmin : (rayPrecompute rayorig raydir).tmin = rayorig.w := rfl
      exact ⟨htmin ▸ hlo, hhi⟩

set_option maxRecDepth 100000 in
unseal Rat.mul Rat.inv Rat.add Rat.sub in
/-- Evaluation of C1 on a concrete one-node, one-triangle scene: the demo ray
hits the triangle at `t = 5`, strictly inside `(RAY_MIN, RAY_MAX)`. -/
theorem C1_nearest_hit_distance_strictly_in_range_witness :
    demoRayOrig.w < (5 : ℚ) ∧ (5 : ℚ) < demoRayDir.w :=
  C1_nearest_hit_distance_strictly_in_range demoScene demoRayOrig demoRayDir 9
    ⟨0, 5, vec3Zero⟩ (by decide) (by decide)

/-! ## No triangle passes: the traversal never records (claim C9) -/

theorem triLoop_noRecord (scene : BVHScene) (pre : RayPre) (tmax0 : ℚ) (anyHit : Bool)
    (H : ∀ b : Int, ¬ triPasses scene pre tmax0 b) :
    ∀ (fuel : Nat) (a : Int) (s s1 : TravState), s.hitT = tmax0 →
      triLoop scene pre anyHit fuel a s = some s1 → s1 = s := by
  intro fuel
  induction fuel with
  | zero => intro a s s1 _ h; simp [triLoop] at h
  | succ n ih =>
    intro a s s1 hT h
    simp only [triLoop] at h
    split_ifs at h with h1 h2 h3 h4 h5
    · cases h; rfl
    · exact absurd ⟨Bool.not_eq_true _ ▸ h1, ⟨h2.1, hT ▸ h2.2⟩, h3, h4⟩ (H a)
    · exact absurd ⟨Bool.not_eq_true _ ▸ h1, ⟨h2.1, hT ▸ h2.2⟩, h3, h4⟩ (H a)
    · exact ih (a + 3) s s1 hT h
    · exact ih (a + 3) s s1 hT h
    · exact ih (a + 3) s s1 hT h

theorem leafLoop_noRecord (scene : BVHScene) (pre : RayPre) (tmax0 : ℚ) (anyHit : Bool)
    (H : ∀ b : Int, ¬ triPasses scene pre tmax0 b) :
    ∀ (fuel : Nat) (s s1 : TravState), s.hitT = tmax0 →
      leafLoop scene pre anyHit fuel s = some s1 →
      s1.hitIndex = s.hitIndex ∧ s1.hitT = s.hitT := by
  intro fuel
  induction fuel with
  | zero => intro s s1 _ h; simp [leafLoop] at h
  | succ n ih =>
    intro s s1 hT h
    simp only [leafLoop] at h
    split_ifs at h with hleaf
    · split at h
      next htl => cases h
      next sA htl =>
        have hAeq : sA = s := triLoop_noRecord scene pre tmax0 anyHit H _ _ _ _ hT htl
        subst hAeq
        have h3 := ih _ _ (by split_ifs <;> simpa using hT) h
        constructor
        · rw [h3.1]; split_ifs <;> rfl
        · rw [h3.2]; split_ifs <;> rfl
    · cases h; exact ⟨rfl, rfl⟩

theorem outerLoop_noRecord (scene : BVHScene) (pre : RayPre) (tmax0 : ℚ) (anyHit : Bool)
    (H : ∀ b : Int, ¬ triPasses scene pre tmax0 b) :
    ∀ (fuel : Nat) (s s1 : TravState), s.hitT = tmax0 →
      outerLoop scene pre anyHit fuel s = some s1 →
      s1.hitIndex = s.hitIndex ∧ s1.hitT = s.hitT := by
  intro fuel
  induction fuel with
  | zero => intro s s1 _ h; simp [outerLoop] at h
  | succ n ih =>
    intro s s1 hT h
    simp only [outerLoop] at h
    split_ifs at h with hcond
    · split at h
      next hin => cases h
      next sA hin =>
        have hf := innerLoop_frame scene pre _ _ _ hin
        split at h
        next hlf => cases h
        next sB hlf =>
          have h2 := leafLoop_noRecord scene pre tmax0 anyHit H _ _ _ (hf.2.1.trans hT) hlf
          have h3 := ih _ _ (h2.2.trans (hf.2.1.trans hT)) h
          exact ⟨h3.1.trans (h2.1.trans hf.1), h3.2.trans (h2.2.trans hf.2.1)⟩
    · cases h; exact ⟨rfl, rfl⟩

/-- Claim C9: a call of `intersectBVHandTriangles` in which no triangle passes
the intersection tests returns `hitTriIdx = -1` with `hitdistance` equal to the
caller-supplied `raydir.w` (t_max), its initial value. -/
theorem C9_no_pass_returns_minus_one_and_tmax (scene : BVHScene)
    (rayorig raydir : Vec4) (anyHit : Bool) (fuel : Nat) (r : TravResult)
    (H : ∀ b : Int, ¬ triPasses scene (rayPrecompute rayorig raydir) raydir.w b)
    (h : intersectBVHandTriangles scene rayorig raydir anyHit fuel = some r) :
    r.hitTriIdx = -1 ∧ r.hitdistance = raydir.w := by
  simp only [intersectBVHandTriangles] at h
  split at h
  next => cases h
  next s ho =>
    cases h
    have h2 := outerLoop_noRecord scene (rayPrecompute rayorig raydir) raydir.w anyHit H
      fuel _ _ rfl ho
    exact h2

set_option maxRecDepth 100000 in
unseal Rat.mul Rat.inv Rat.add Rat.sub in
/-- Evaluation of C9 on a concrete scene whose triangle texture holds only
leaf terminators: the traversal returns the `-1` sentinel and `RAY_MAX`. -/
theorem C9_no_pass_returns_minus_one_and_tmax_witness :
    (-1 : Int) = -1 ∧ RAY_MAX = demoRayDir.w :=
  C9_no_pass_returns_minus_one_and_tmax sceneNoTri demoRayOrig demoRayDir false 9
    ⟨-1, RAY_MAX, vec3Zero⟩
    (by intro b; simp [triPasses, sceneNoTri, endTexel])
    (by decide)

/-! ## Any-hit versus nearest-hit (claim C2)

The `anyHit` flag is consulted only inside the hit-recording branch of the
triangle loop, so as long as no triangle passes the tests the two modes make
identical steps. -/

theorem triLoop_any_nohit (scene : BVHScene) (pre : RayPre) :
    ∀ (fuel : Nat) (a : Int) (s s1 : TravState), 0 ≤ a →
      triLoop scene pre true fuel a s = some s1 → s1.hitIndex = -1 →
      s1 = s ∧ triLoop scene pre false fuel a s = some s1 := by
  intro fuel
  induction fuel with
  | zero => intro a s s1 _ h _; simp [triLoop] at h
  | succ n ih =>
    intro a s s1 ha h hne
    simp only [triLoop] at h
    split_ifs at h with h1 h2 h3 h4
    · cases h
      exact ⟨rfl, by simp [triLoop, h1]⟩
    · cases h
      simp at hne
      omega
    · have h5 := ih (a + 3) s s1 (by omega) h hne
      refine ⟨h5.1, ?_⟩
      simp only [triLoop]
      rw [if_neg (by simp [h1]), if_pos h2, if_pos h3, if_neg h4]
      exact h5.2
    · have h5 := ih (a + 3) s s1 (by omega) h hne
      refine ⟨h5.1, ?_⟩
      simp only [triLoop]
      rw [if_neg (by simp [h1]), if_pos h2, if_neg h3]
      exact h5.2
    · have h5 := ih (a + 3) s s1 (by omega) h hne
      refine ⟨h5.1, ?_⟩
      simp only [triLoop]
      rw [if_neg (by simp [h1]), if_neg h2]
      exact h5.2

theorem triLoop_hitIndex_neg (scene : BVHScene) (pre : RayPre) (anyHit : Bool) :
    ∀ (fuel : Nat) (a : Int) (s s1 : TravState), 0 ≤ a →
      triLoop scene pre anyHit fuel a s = some s1 → s1.hitIndex = -1 →
      s.hitIndex = -1 := by
  intro fuel
  induction fuel with
  | zero => intro a s s1 _ h _; simp [triLoop] at h
  | succ n ih =>
    intro a s s1 ha h hne
    simp only [triLoop] at h
    split_ifs at h with h1 h2 h3 h4 h5
    · cases h; exact hne
    · cases h; simp at hne; omega
    · have h6 := ih (a + 3) _ _ (by omega) h hne
      simp at h6; omega
    · exact ih (a + 3) _ _ (by omega) h hne
    · exact ih (a + 3) _ _ (by omega) h hne
    · exact ih (a + 3) _ _ (by omega) h hne

theorem leafLoop_hitIndex_neg (scene : BVHScene) (pre : RayPre) (anyHit : Bool) :
    ∀ (fuel : Nat) (s s1 : TravState),
      leafLoop scene pre anyHit fuel s = some s1 → s1.hitIndex = -1 →
      s.hitIndex = -1 := by
  intro fuel
  induction fuel with
  | zero => intro s s1 h _; simp [leafLoop] at h
  | succ n ih =>
    intro s s1 h hne
    simp only [leafLoop] at h
    split_ifs at h with hleaf
    · split at h
      next htl => cases h
      next sA htl =>
        have h3 := ih _ _ h hne
        have hAne : sA.hitIndex = -1 := by
          revert h3; split_ifs <;> exact fun h3 => h3
        exact triLoop_hitIndex_neg scene pre anyHit _ _ _ _ (by omega) htl hAne
    · cases h; exact hne

theorem leafLoop_any_nohit (scene : BVHScene) (pre : RayPre) :
    ∀ (fuel : Nat) (s s1 : TravState),
      leafLoop scene pre true fuel s = some s1 → s1.hitIndex = -1 →
      leafLoop scene pre false fuel s = some s1 := by
  intro fuel
  induction fuel with
  | zero => intro s s1 h _; simp [leafLoop] at h
  | succ n ih =>
    intro s s1 h hne
    simp only [leafLoop] at h ⊢
    split_ifs at h with hleaf
    · rw [if_pos hleaf]
      split at h
      next htl => cases h
      next sA htl =>
        have h3 : sA.hitIndex = -1 := by
          have h4 := leafLoop_hitIndex_neg scene pre true n _ _ h hne
          revert h4; split_ifs <;> exact fun h4 => h4
        have h5 := triLoop_any_nohit scene pre _ _ _ _ (by omega) htl h3
        rw [h5.2]
        exact ih _ _ h hne
    · rw [if_neg hleaf]; exact h

theorem outerLoop_hitIndex_neg (scene : BVHScene) (pre : RayPre) (anyHit : Bool) :
    ∀ (fuel : Nat) (s s1 : TravState),
      outerLoop scene pre anyHit fuel s = some s1 → s1.hitIndex = -1 →
      s.hitIndex = -1 := by
  intro fuel
  induction fuel with
  | zero => intro s s1 h _; simp [outerLoop] at h
  | succ n ih =>
    intro s s1 h hne
    simp only [outerLoop] at h
    split_ifs at h with hcond
    · split at h
      next hin => cases h
      next sA hin =>
        split at h
        next hlf => cases h
        next sB hlf =>
          have hB := ih _ _ h hne
          have hA := leafLoop_hitIndex_neg scene pre anyHit _ _ _ hlf hB
          have hf := innerLoop_frame scene pre _ _ _ hin
          rw [← hf.1]
          exact hA
    · cases h; exact hne

theorem outerLoop_any_nohit (scene : BVHScene) (pre : RayPre) :
    ∀ (fuel : Nat) (s s1 : TravState),
      outerLoop scene pre true fuel s = some s1 → s1.hitIndex = -1 →
      outerLoop scene pre false fuel s = some s1 := by
  intro fuel
  induction fuel with
  | zero => intro s s1 h _; simp [outerLoop] at h
  | succ n ih =>
    intro s s1 h hne
    simp only [outerLoop] at h ⊢
    split_ifs at h with hcond
    · rw [if_pos hcond]
      split at h
      next hin => cases h
      next sA hin =>
        split at h
        next hlf => cases h
        next sB hlf =>
          have hBne : sB.hitIndex = -1 := outerLoop_hitIndex_neg scene pre true n _ _ h hne
          rw [leafLoop_any_nohit scene pre _ _ _ hlf hBne]
          exact ih _ _ h hne
    · rw [if_neg hcond]; exact h

theorem triLoop_any_first (scene : BVHScene) (pre : RayPre) :
    ∀ (fuel : Nat) (a : Int) (s s1 : TravState), 0 ≤ a → s.hitIndex = -1 →
      triLoop scene pre true fuel a s = some s1 → s1.hitIndex ≠ -1 →
      s1.nodeAddr = EntrypointSentinel ∧
      ∃ k : Int, 0 ≤ k ∧ s1.hitIndex = a + 3 * k ∧
        triPasses scene pre s.hitT s1.hitIndex ∧
        ∀ j : Int, 0 ≤ j → j < k →
          (scene.triWoop (a + 3 * j)).isEnd = false ∧
          ¬ triPasses scene pre s.hitT (a + 3 * j) := by
  intro fuel
  induction fuel with
  | zero => intro a s s1 _ _ h _; simp [triLoop] at h
  | succ n ih =>
    intro a s s1 ha hs h hne
    simp only [triLoop] at h
    split_ifs at h with h1 h2 h3 h4
    · cases h; exact absurd hs hne
    · cases h
      refine ⟨rfl, 0, le_refl 0, by simp, ?_, by omega⟩
      exact ⟨Bool.not_eq_true _ ▸ h1, h2, h3, h4⟩
    · obtain ⟨hsent, k, hk0, hidx, hpass, hprev⟩ := ih (a + 3) s s1 (by omega) hs h hne
      refine ⟨hsent, k + 1, by omega, by omega, hpass, ?_⟩
      intro j hj0 hjk
      by_cases hj : j = 0
      · subst hj
        simp only [mul_zero, add_zero]
        refine ⟨Bool.not_eq_true _ ▸ h1, fun hp => ?_⟩
        exact absurd hp.2.2.2 h4
      · have he : a + 3 * j = (a + 3) + 3 * (j - 1) := by ring
        rw [he]
        exact hprev (j - 1) (by omega) (by omega)
    · obtain ⟨hsent, k, hk0, hidx, hpass, hprev⟩ := ih (a + 3) s s1 (by omega) hs h hne
      refine ⟨hsent, k + 1, by omega, by omega, hpass, ?_⟩
      intro j hj0 hjk
      by_cases hj : j = 0
      · subst hj
        simp only [mul_zero, add_zero]
        refine ⟨Bool.not_eq_true _ ▸ h1, fun hp => ?_⟩
        exact absurd hp.2.2.1 h3
      · have he : a + 3 * j = (a + 3) + 3 * (j - 1) := by ring
        rw [he]
        exact hprev (j - 1) (by omega) (by omega)
    · obtain ⟨hsent, k, hk0, hidx, hpass, hprev⟩ := ih (a + 3) s s1 (by omega) hs h hne
      refine ⟨hsent, k + 1, by omega, by omega, hpass, ?_⟩
      intro j hj0 hjk
      by_cases hj : j = 0
      · subst hj
        simp only [mul_zero, add_zero]
        refine ⟨Bool.not_eq_true _ ▸ h1, fun hp => ?_⟩
        exact absurd hp.2.1 h2
      · have he : a + 3 * j = (a + 3) + 3 * (j - 1) := by ring
        rw [he]
        exact hprev (j - 1) (by omega) (by omega)

theorem outerLoop_sentinel_exit (scene : BVHScene) (pre : RayPre) (anyHit : Bool)
    (fuel : Nat) (s : TravState) (h : s.nodeAddr = EntrypointSentinel) :
    outerLoop scene pre anyHit (fuel + 1) s = some s := by
  simp [outerLoop, h]

/-- Claim C2: (i) if the any-hit run of `intersectBVHandTriangles` reports no
hit, the nearest-hit run on the same ray returns the very same (no-hit)
result; (ii) in any-hit mode the triangle loop returns at the first triangle
that passes the intersection tests, with `nodeAddr` set to the sentinel, and
(iii) a state whose `nodeAddr` is the sentinel makes the outer traversal loop
return immediately, so the any-hit run performs no further work. -/
theorem C2_anyhit_monotone_and_stops_at_first_pass (scene : BVHScene)
    (rayorig raydir : Vec4) (fuel : Nat) :
    (∀ r : TravResult,
      intersectBVHandTriangles scene rayorig raydir true fuel = some r →
      r.hitTriIdx = -1 →
      intersectBVHandTriangles scene rayorig raydir false fuel = some r) ∧
    (∀ (a : Int) (s s1 : TravState), 0 ≤ a → s.hitIndex = -1 →
      triLoop scene (rayPrecompute rayorig raydir) true fuel a s = some s1 →
      s1.hitIndex ≠ -1 →
      s1.nodeAddr = EntrypointSentinel ∧
      ∃ k : Int, 0 ≤ k ∧ s1.hitIndex = a + 3 * k ∧
        triPasses scene (rayPrecompute rayorig raydir) s.hitT s1.hitIndex ∧
        ∀ j : Int, 0 ≤ j → j < k →
          (scene.triWoop (a + 3 * j)).isEnd = false ∧
          ¬ triPasses scene (rayPrecompute rayorig raydir) s.hitT (a + 3 * j)) ∧
    (∀ s : TravState, s.nodeAddr = EntrypointSentinel →
      outerLoop scene (rayPrecompute rayorig raydir) true (fuel + 1) s = some s) := by
  refine ⟨?_, ?_, ?_⟩
  · intro r h1 h2
    simp only [intersectBVHandTriangles] at h1 ⊢
    split at h1
    next => cases h1
    next s ho =>
      cases h1
      rw [outerLoop_any_nohit scene (rayPrecompute rayorig raydir) fuel _ _ ho h2]
  · exact triLoop_any_first scene (rayPrecompute rayorig raydir) fuel
  · exact fun s hs => outerLoop_sentinel_exit scene (rayPrecompute rayorig raydir) true fuel s hs

set_option maxRecDepth 100000 in
unseal Rat.mul Rat.inv Rat.add Rat.sub in
/-- Evaluation of C2 at concrete data: on the terminator-only scene the
any-hit run reports no hit and the nearest-hit run returns the same result;
on the demo scene the any-hit triangle loop, started on the postponed leaf,
stops with the sentinel after recording the first passing triangle. -/
theorem C2_anyhit_monotone_and_stops_at_first_pass_witness :
    intersectBVHandTriangles sceneNoTri demoRayOrig demoRayDir false 9 =
      some ⟨-1, RAY_MAX, vec3Zero⟩ ∧
    (({ stack := [], leafAddr := -1, nodeAddr := EntrypointSentinel, hitIndex := 0,
        hitT := 5, trinormal := vec3Zero } : TravState)).nodeAddr = EntrypointSentinel ∧
    outerLoop demoScene demoPre true 10 demoTravState = some demoTravState := by
  refine ⟨?_, ?_, ?_⟩
  · exact (C2_anyhit_monotone_and_stops_at_first_pass sceneNoTri demoRayOrig demoRayDir 9).1
      ⟨-1, RAY_MAX, vec3Zero⟩ (by decide) (by decide)
  · exact ((C2_anyhit_monotone_and_stops_at_first_pass demoScene demoRayOrig demoRayDir 9).2.1
      0 demoTravState
      { stack := [], leafAddr := -1, nodeAddr := EntrypointSentinel, hitIndex := 0,
        hitT := 5, trinormal := vec3Zero }
      (by decide) (by decide) (by decide) (by decide)).1
  · exact (C2_anyhit_monotone_and_stops_at_first_pass demoScene demoRayOrig demoRayDir 9).2.2
      demoTravState (by decide)

/-! ## Componentwise lemmas for the vector operations -/

theorem vadd_x (a b : Vec3) : (a + b).x = a.x + b.x := rfl

theorem vadd_y (a b : Vec3) : (a + b).y = a.y + b.y := rfl

theorem vadd_z (a b : Vec3) : (a + b).z = a.z + b.z := rfl

theorem vsub_x (a b : Vec3) : (a - b).x = a.x - b.x := rfl

theorem vsub_y (a b : Vec3) : (a - b).y = a.y - b.y := rfl

theorem vsub_z (a b : Vec3) : (a - b).z = a.z - b.z := rfl

theorem vmul_x (a b : Vec3) : (a * b).x = a.x * b.x := rfl

theorem vmul_y (a b : Vec3) : (a * b).y = a.y * b.y := rfl

theorem vmul_z (a b : Vec3) : (a * b).z = a.z * b.z := rfl

theorem vsmul_x (s : ℚ) (a : Vec3) : (s • a).x = s * a.x := rfl

theorem vsmul_y (s : ℚ) (a : Vec3) : (s • a).y = s * a.y := rfl

theorem vsmul_z (s : ℚ) (a : Vec3) : (s • a).z = s * a.z := rfl

/-- Claim C3: in the `MAT_REFL` branch with `alphax == 0.0f` the outgoing
direction is the incident direction reflected about the geometric normal and
then normalized, and the mask is scaled by exactly `ks * objcol` and nothing
else; for a unit normal the reflected direction makes the same angle with the
normal as the incident one (`dot` negated) and keeps the incident length. -/
theorem C3_perfect_mirror_reflection (raydir n nl hitpoint mask objcol : Vec3)
    (ks : ℚ) (hn : dot3 n n = 1) :
    (matReflPerfectMirror raydir n nl hitpoint mask objcol ks).nextdir =
      normalize3 (reflectDir raydir n) ∧
    (matReflPerfectMirror raydir n nl hitpoint mask objcol ks).mask =
      mask * (ks • objcol) ∧
    dot3 n (reflectDir raydir n) = -(dot3 n raydir) ∧
    dot3 (reflectDir raydir n) (reflectDir raydir n) = dot3 raydir raydir := by
  simp only [dot3] at hn
  refine ⟨rfl, rfl, ?_, ?_⟩
  · simp only [reflectDir, dot3, vsub_x, vsub_y, vsub_z, vsmul_x, vsmul_y, vsmul_z]
    linear_combination (-2 * (n.x * raydir.x + n.y * raydir.y + n.z * raydir.z)) * hn
  · simp only [reflectDir, dot3, vsub_x, vsub_y, vsub_z, vsmul_x, vsmul_y, vsmul_z]
    linear_combination
      (4 * (n.x * raydir.x + n.y * raydir.y + n.z * raydir.z) ^ 2) * hn

unseal Rat.mul Rat.inv Rat.add Rat.sub in
/-- Evaluation of C3 at the unit normal `(0,1,0)` and incident `(1,-1,0)`. -/
theorem C3_perfect_mirror_reflection_witness :
    (matReflPerfectMirror ⟨1, -1, 0⟩ ⟨0, 1, 0⟩ ⟨0, 1, 0⟩ vec3Zero vec3One vec3One 1).nextdir =
      normalize3 (reflectDir ⟨1, -1, 0⟩ ⟨0, 1, 0⟩) ∧
    (matReflPerfectMirror ⟨1, -1, 0⟩ ⟨0, 1, 0⟩ ⟨0, 1, 0⟩ vec3Zero vec3One vec3One 1).mask =
      vec3One * ((1 : ℚ) • vec3One) ∧
    dot3 ⟨0, 1, 0⟩ (reflectDir ⟨1, -1, 0⟩ ⟨0, 1, 0⟩) = -(dot3 ⟨0, 1, 0⟩ ⟨1, -1, 0⟩) ∧
    dot3 (reflectDir ⟨1, -1, 0⟩ ⟨0, 1, 0⟩) (reflectDir ⟨1, -1, 0⟩ ⟨0, 1, 0⟩) =
      dot3 ⟨1, -1, 0⟩ ⟨1, -1, 0⟩ :=
  C3_perfect_mirror_reflection ⟨1, -1, 0⟩ ⟨0, 1, 0⟩ ⟨0, 1, 0⟩ vec3Zero vec3One vec3One 1
    (by decide)

unseal Rat.mul Rat.inv Rat.add Rat.sub in
/-- Counterexample to claim C4 as stated: at a transmission event
(`refl = false`) that enters the object (`into = true`, crossing air → glass
with `etaT = 1.4`), the mask update of the microfacet-glass branch applies no
index-of-refraction factor at all — the result equals `mask * beta * objcol`
and differs from that product scaled by the squared inverse relative index
of refraction under either orientation convention. -/
theorem C4_counterexample_entering_transmission :
    macrofacetGlassMaskUpdate vec3One vec3One vec3One false true (7 / 5) =
      vec3One * (vec3One * vec3One) ∧
    macrofacetGlassMaskUpdate vec3One vec3One vec3One false true (7 / 5) ≠
      ((1 / relativeIOR true (7 / 5)) * (1 / relativeIOR true (7 / 5))) •
        (vec3One * (vec3One * vec3One)) ∧
    macrofacetGlassMaskUpdate vec3One vec3One vec3One false true (7 / 5) ≠
      (relativeIOR true (7 / 5) * relativeIOR true (7 / 5)) •
        (vec3One * (vec3One * vec3One)) := by
  refine ⟨by decide, by decide, by decide⟩

/-- Claim C4 amended: in the microfacet-glass branch, a transmission event
is scaled by the squared inverse relative index of refraction only when the
ray exits the object (`into = false`, where that factor is `etaT²`); an
entering transmission is scaled by `beta * objcol` alone with no
index-of-refraction factor. -/
theorem C4_amended_transmission_scaling (mask beta objcol : Vec3) (etaT : ℚ) :
    macrofacetGlassMaskUpdate mask beta objcol false false etaT =
      ((1 / relativeIOR false etaT) * (1 / relativeIOR false etaT)) •
        (mask * (beta * objcol)) ∧
    macrofacetGlassMaskUpdate mask beta objcol false true etaT =
      mask * (beta * objcol) := by
  constructor
  · simp [macrofacetGlassMaskUpdate, relativeIOR, one_div_one_div]
  · simp [macrofacetGlassMaskUpdate]

/-! ## Lemmas on the subsurface probe loop (claims C5, C6, C10) -/

theorem probeAttemptLoop_attempts_le (env : Vec3 → Vec3 → ProbeQueryOut)
    (sampler : Nat → ProbeSample) (entry : ProbeEntry) :
    ∀ (n : Nat) (st : ProbeState), (probeAttemptLoop env sampler entry n st).2 ≤ n := by
  intro n
  induction n with
  | zero => intro st; simp [probeAttemptLoop]
  | succ m ih =>
    intro st
    simp only [probeAttemptLoop]
    split_ifs with h0
    · exact Nat.succ_le_succ (ih _)
    · exact Nat.zero_le _

theorem probeInnerStep_cands (env : Vec3 → Vec3 → ProbeQueryOut) (entry : ProbeEntry)
    (st : ProbeState) (c : ProbeCandidate)
    (hc : c ∈ (probeInnerStep env entry st).1.cands) :
    c ∈ st.cands ∨
      (c.recSurfaceMat = entry.bssrdfMatId ∧
       c.recRealRadius / c.recSampledRadius < radiusRatioMax ∧
       c.recNormalDot > normalDotMin ∧
       c.recNormalDot = |dot3 c.normal c.recProbeDir|) := by
  simp only [probeInnerStep] at hc
  split at hc
  next h1 => exact Or.inl hc
  next h1 =>
    split at hc
    next h2 =>
      have hc2 := List.mem_append.mp hc
      rcases hc2 with hc2 | hc2
      · exact Or.inl hc2
      · rcases List.mem_singleton.mp hc2 with rfl
        exact Or.inr ⟨h2.1, h2.2.1, h2.2.2, rfl⟩
    next h2 => exact Or.inl hc

theorem probeInnerLoop_cands (env : Vec3 → Vec3 → ProbeQueryOut) (entry : ProbeEntry) :
    ∀ (n : Nat) (st : ProbeState) (c : ProbeCandidate),
      c ∈ (probeInnerLoop env entry n st).cands →
      c ∈ st.cands ∨
        (c.recSurfaceMat = entry.bssrdfMatId ∧
         c.recRealRadius / c.recSampledRadius < radiusRatioMax ∧
         c.recNormalDot > normalDotMin ∧
         c.recNormalDot = |dot3 c.normal c.recProbeDir|) := by
  intro n
  induction n with
  | zero => intro st c hc; exact Or.inl hc
  | succ m ih =>
    intro st c hc
    simp only [probeInnerLoop] at hc
    split_ifs at hc with hb
    · exact probeInnerStep_cands env entry st c hc
    · rcases ih _ _ hc with h | h
      · exact probeInnerStep_cands env entry st c h
      · exact Or.inr h

theorem probeAttemptLoop_cands (env : Vec3 → Vec3 → ProbeQueryOut)
    (sampler : Nat → ProbeSample) (entry : ProbeEntry) :
    ∀ (n : Nat) (st : ProbeState) (c : ProbeCandidate),
      c ∈ (probeAttemptLoop env sampler entry n st).1.cands →
      c ∈ st.cands ∨
        (c.recSurfaceMat = entry.bssrdfMatId ∧
         c.recRealRadius / c.recSampledRadius < radiusRatioMax ∧
         c.recNormalDot > normalDotMin ∧
         c.recNormalDot = |dot3 c.normal c.recProbeDir|) := by
  intro n
  induction n with
  | zero => intro st c hc; exact Or.inl hc
  | succ m ih =>
    intro st c hc
    simp only [probeAttemptLoop] at hc
    split_ifs at hc with h0
    · rcases ih _ _ hc with h | h
      · rcases probeInnerLoop_cands env entry maxSurfaceHit _ c h with h2 | h2
        · exact Or.inl h2
        · exact Or.inr h2
      · exact Or.inr h
    · exact Or.inl hc

theorem probeInnerStep_hitCount (env : Vec3 → Vec3 → ProbeQueryOut) (entry : ProbeEntry)
    (st : ProbeState) :
    (probeInnerStep env entry st).1.hitCount ≤ st.hitCount + 1 := by
  simp only [probeInnerStep]
  split_ifs <;> simp

theorem probeInnerLoop_hitCount (env : Vec3 → Vec3 → ProbeQueryOut) (entry : ProbeEntry) :
    ∀ (n : Nat) (st : ProbeState),
      (probeInnerLoop env entry n st).hitCount ≤ st.hitCount + n := by
  intro n
  induction n with
  | zero => intro st; exact Nat.le_refl _
  | succ m ih =>
    intro st
    simp only [probeInnerLoop]
    split_ifs with hb
    · have := probeInnerStep_hitCount env entry st
      omega
    · have h1 := ih (probeInnerStep env entry st).1
      have h2 := probeInnerStep_hitCount env entry st
      omega

theorem probeAttemptLoop_hitCount_le_one (env : Vec3 → Vec3 → ProbeQueryOut)
    (sampler : Nat → ProbeSample) (entry : ProbeEntry) :
    ∀ (n : Nat) (st : ProbeState), st.hitCount ≤ 1 →
      (probeAttemptLoop env sampler entry n st).1.hitCount ≤ 1 := by
  intro n
  induction n with
  | zero => intro st h; exact h
  | succ m ih =>
    intro st h
    simp only [probeAttemptLoop]
    split_ifs with h0
    · refine ih _ ?_
      have h1 := probeInnerLoop_hitCount env entry maxSurfaceHit
        { st with probeRayOrig := (sampler st.rngCursor).orig,
                  probeRayDir := (sampler st.rngCursor).dir,
                  probeRayLength := (sampler st.rngCursor).len,
                  sampledRadius := (sampler st.rngCursor).radius,
                  rngCursor := st.rngCursor + 1 }
      simp only [maxSurfaceHit] at h1
      simpa [h0] using h1
    · exact h

/-- Claim C5: the subsurface probe-sampling loop executes at most 100
attempts (the model is structurally recursive, hence total, and the attempt
counter it returns never exceeds 100), and when no exit point was accepted
(`hitCount = 0`) the branch falls back to a local reflection at the entry
point: origin nudged along the oriented normal `nl` and throughput scaled by
`beta * ks * objcol`. -/
theorem C5_probe_attempts_bounded_and_fallback
    (env : Vec3 → Vec3 → ProbeQueryOut) (sampler : Nat → ProbeSample) (entry : ProbeEntry)
    (hitpoint mask nl beta objcol bssrdfBeta : Vec3) (ks kd rdSel outS : ℚ) :
    (subsurfaceProbePhase env sampler entry).2 ≤ 100 ∧
    ((subsurfaceProbePhase env sampler entry).1.hitCount = 0 →
      subsurfaceAfterProbe (subsurfaceProbePhase env sampler entry).1 hitpoint mask nl beta
          objcol ks kd rdSel bssrdfBeta outS =
        (hitpoint + RAY_MIN • nl, mask * ((ks • beta) * objcol))) := by
  constructor
  · exact probeAttemptLoop_attempts_le env sampler entry 100 probeInitState
  · intro h0
    simp only [subsurfaceAfterProbe]
    rw [if_pos h0]

set_option maxRecDepth 100000 in
unseal Rat.mul Rat.inv Rat.add Rat.sub in
/-- Evaluation of C5 on a probe environment whose hits all lie beyond the
probe length: all 100 attempts run, no exit point is accepted, and the branch
output is the local-reflection fallback. -/
theorem C5_probe_attempts_bounded_and_fallback_witness :
    (subsurfaceProbePhase demoProbeEnvMiss demoSampler demoEntry).2 ≤ 100 ∧
    subsurfaceAfterProbe (subsurfaceProbePhase demoProbeEnvMiss demoSampler demoEntry).1
        vec3Zero vec3One ⟨0, 0, 1⟩ vec3One vec3One 1 1 (1 / 2) vec3One 1 =
      (vec3Zero + RAY_MIN • (⟨0, 0, 1⟩ : Vec3), vec3One * (((1 : ℚ) • vec3One) * vec3One)) :=
  ⟨(C5_probe_attempts_bounded_and_fallback demoProbeEnvMiss demoSampler demoEntry
      vec3Zero vec3One ⟨0, 0, 1⟩ vec3One vec3One vec3One 1 1 (1 / 2) 1).1,
   (C5_probe_attempts_bounded_and_fallback demoProbeEnvMiss demoSampler demoEntry
      vec3Zero vec3One ⟨0, 0, 1⟩ vec3One vec3One vec3One 1 1 (1 / 2) 1).2 (by decide)⟩

/-- Claim C6: every exit point recorded into the probe candidate set was
recorded under the full acceptance test: its surface material id equals the
entry surface's `bssrdfMatId`, the ratio of actual exit radius to sampled
radius is strictly below 1.4, and the absolute cosine between the
(normalized) interpolated shading normal and the probe direction is strictly
above 0.5. -/
theorem C6_recorded_exit_points_satisfy_acceptance
    (env : Vec3 → Vec3 → ProbeQueryOut) (sampler : Nat → ProbeSample) (entry : ProbeEntry) :
    ∀ c ∈ (subsurfaceProbePhase env sampler entry).1.cands,
      c.recSurfaceMat = entry.bssrdfMatId ∧
      c.recRealRadius / c.recSampledRadius < radiusRatioMax ∧
      c.recNormalDot > normalDotMin ∧
      c.recNormalDot = |dot3 c.normal c.recProbeDir| := by
  intro c hc
  rcases probeAttemptLoop_cands env sampler entry 100 probeInitState c hc with h | h
  · simp [probeInitState] at h
  · exact h

set_option maxRecDepth 100000 in
unseal Rat.mul Rat.inv Rat.add Rat.sub in
/-- Evaluation of C6 on a probe environment that accepts on the first
attempt: the single recorded candidate satisfies all three acceptance
conditions. -/
theorem C6_recorded_exit_points_satisfy_acceptance_witness :
    (7 : Int) = demoEntry.bssrdfMatId ∧
    (0 : ℚ) / 1 < radiusRatioMax ∧
    (1 : ℚ) > normalDotMin ∧
    (1 : ℚ) = |dot3 ⟨0, 0, 1⟩ ⟨0, 0, -1⟩| :=
  C6_recorded_exit_points_satisfy_acceptance demoProbeEnv demoSampler demoEntry
    { point := vec3Zero, normal := ⟨0, 0, 1⟩, color := vec3One, recSurfaceMat := 7,
      recRealRadius := 0, recSampledRadius := 1, recNormalDot := 1,
      recProbeDir := ⟨0, 0, -1⟩ }
    (by decide)

set_option maxRecDepth 100000 in
unseal Rat.mul Rat.inv Rat.add Rat.sub in
/-- Counterexample to claim C10 as stated: `curand_uniform` (whose wrapper
`rd` supplies the selection value) can return exactly `1.0f` — its documented
range is the half-open interval from 0.0 excluded to 1.0 included.  At
`rd = 1.0` and the reachable candidate count `hitCount = 1`, the computed
`nextPointIdx = rd * hitCount` equals `1 = hitCount`, which is not a valid
index into the capacity-1 candidate arrays (the in-bounds indices are
`0 ≤ idx < hitCount`). -/
theorem C10_counterexample_rd_one_out_of_bounds :
    (subsurfaceProbePhase demoProbeEnv demoSampler demoEntry).1.hitCount = 1 ∧
    selectIdx 1 (subsurfaceProbePhase demoProbeEnv demoSampler demoEntry).1.hitCount = 1 ∧
    ¬ (selectIdx 1 (subsurfaceProbePhase demoProbeEnv demoSampler demoEntry).1.hitCount <
        ((subsurfaceProbePhase demoProbeEnv demoSampler demoEntry).1.hitCount : Int)) :=
  ⟨by decide, by decide, by decide⟩

/-- Claim C10 amended: the candidate count never exceeds the capacity
`maxSurfaceHit = 1`, and for every selection value `rd` with `0 ≤ rd < 1` —
that is, excluding the attainable endpoint `rd = 1.0`, where the index
equals `hitCount` and is out of bounds — the selected index satisfies
`0 ≤ nextPointIdx < hitCount`. -/
theorem C10_amended_index_in_bounds_for_rd_below_one
    (env : Vec3 → Vec3 → ProbeQueryOut) (sampler : Nat → ProbeSample) (entry : ProbeEntry)
    (rdSel : ℚ) :
    (subsurfaceProbePhase env sampler entry).1.hitCount ≤ maxSurfaceHit ∧
    (0 ≤ rdSel → rdSel < 1 → 0 < (subsurfaceProbePhase env sampler entry).1.hitCount →
      0 ≤ selectIdx rdSel (subsurfaceProbePhase env sampler entry).1.hitCount ∧
      selectIdx rdSel (subsurfaceProbePhase env sampler entry).1.hitCount <
        ((subsurfaceProbePhase env sampler entry).1.hitCount : Int)) := by
  constructor
  · exact probeAttemptLoop_hitCount_le_one env sampler entry 100 probeInitState
      (by simp [probeInitState])
  · intro h0 h1 hpos
    constructor
    · exact Int.floor_nonneg.mpr (mul_nonneg h0 (Nat.cast_nonneg _))
    · refine Int.floor_lt.mpr ?_
      push_cast
      calc rdSel * ((subsurfaceProbePhase env sampler entry).1.hitCount : ℚ) <
            1 * ((subsurfaceProbePhase env sampler entry).1.hitCount : ℚ) := by
            exact mul_lt_mul_of_pos_right h1 (by exact_mod_cast hpos)
        _ = _ := one_mul _

set_option maxRecDepth 100000 in
unseal Rat.mul Rat.inv Rat.add Rat.sub in
/-- Evaluation of the amended C10 at `rd = 1/2` on the accepting probe
environment (`hitCount = 1`): the selected index is `0`, in bounds. -/
theorem C10_amended_index_in_bounds_for_rd_below_one_witness :
    (subsurfaceProbePhase demoProbeEnv demoSampler demoEntry).1.hitCount ≤ maxSurfaceHit ∧
    0 ≤ selectIdx (1 / 2) (subsurfaceProbePhase demoProbeEnv demoSampler demoEntry).1.hitCount ∧
    selectIdx (1 / 2) (subsurfaceProbePhase demoProbeEnv demoSampler demoEntry).1.hitCount <
      ((subsurfaceProbePhase demoProbeEnv demoSampler demoEntry).1.hitCount : Int) :=
  ⟨(C10_amended_index_in_bounds_for_rd_below_one demoProbeEnv demoSampler demoEntry (1 / 2)).1,
   (C10_amended_index_in_bounds_for_rd_below_one demoProbeEnv demoSampler demoEntry
      (1 / 2)).2 (by norm_num) (by norm_num) (by decide)⟩

/-! ## Nonnegativity of the throughput mask (claim C7) -/

theorem nonneg3_mul {a b : Vec3} (ha : nonneg3 a) (hb : nonneg3 b) : nonneg3 (a * b) :=
  ⟨mul_nonneg ha.1 hb.1, mul_nonneg ha.2.1 hb.2.1, mul_nonneg ha.2.2 hb.2.2⟩

theorem nonneg3_smul {s : ℚ} {a : Vec3} (hs : 0 ≤ s) (ha : nonneg3 a) : nonneg3 (s • a) :=
  ⟨mul_nonneg hs ha.1, mul_nonneg hs ha.2.1, mul_nonneg hs ha.2.2⟩

theorem maskUpdate_nonneg (m : Vec3) (e : BounceEvent) (hm : nonneg3 m)
    (he : eventOK e) : nonneg3 (maskUpdate m e) := by
  cases e with
  | diff objcol kd => exact nonneg3_mul hm (nonneg3_smul he.2 he.1)
  | reflMirror objcol ks => exact nonneg3_mul hm (nonneg3_smul he.2 he.1)
  | reflMicro objcol beta ks =>
      exact nonneg3_mul hm (nonneg3_mul (nonneg3_smul he.2.2 he.2.1) he.1)
  | diffReflSpec beta => exact nonneg3_mul hm he
  | diffReflDiff objcol => exact nonneg3_mul hm he
  | fresnelBlendEvt beta => exact nonneg3_mul hm he
  | glassSpecular => exact hm
  | glassMicro objcol beta refl into etaT =>
      show nonneg3 (macrofacetGlassMaskUpdate m beta objcol refl into etaT)
      simp only [macrofacetGlassMaskUpdate]
      split_ifs
      · exact nonneg3_smul (mul_self_nonneg etaT) (nonneg3_mul hm (nonneg3_mul he.2 he.1))
      · exact nonneg3_mul hm (nonneg3_mul he.2 he.1)
  | mediumBoundary => exact hm
  | matNull => exact hm
  | subsurfaceRefl objcol beta ks =>
      exact nonneg3_mul hm (nonneg3_mul (nonneg3_smul he.2.2 he.2.1) he.1)
  | subsurfaceFallback objcol beta ks =>
      exact nonneg3_mul hm (nonneg3_mul (nonneg3_smul he.2.2 he.2.1) he.1)
  | subsurfaceDiffusion nextColor bssrdfBeta hitCount kd outS =>
      exact nonneg3_smul he.2.2.2
        (nonneg3_mul hm
          (nonneg3_mul (nonneg3_smul he.2.2.1 (nonneg3_smul (Nat.cast_nonneg _) he.2.1)) he.1))
  | mediumScatter rho => exact nonneg3_mul hm he

theorem foldl_maskUpdate_nonneg :
    ∀ (events : List BounceEvent) (m : Vec3), nonneg3 m → (∀ e ∈ events, eventOK e) →
      nonneg3 (events.foldl maskUpdate m) := by
  intro events
  induction events with
  | nil => intro m hm _; exact hm
  | cons e rest ih =>
    intro m hm hok
    simp only [List.foldl_cons]
    exact ih _ (maskUpdate_nonneg m e hm (hok e (List.mem_cons_self e rest)))
      (fun f hf => hok f (List.mem_cons_of_mem e hf))

/-- Claim C7: the throughput mask starts at `(1,1,1)` and remains
componentwise nonnegative after every sequence of per-bounce mask updates of
the material branches, given the nonnegativity of the colors and sampling
weights each branch consumes (the spec's invariant for the scattering models
computed outside these sources). -/
theorem C7_mask_starts_at_one_and_stays_nonneg (events : List BounceEvent)
    (hok : ∀ e ∈ events, eventOK e) :
    maskInit = ⟨1, 1, 1⟩ ∧ nonneg3 (maskAfter events) := by
  refine ⟨rfl, ?_⟩
  exact foldl_maskUpdate_nonneg events maskInit (by decide) hok

unseal Rat.mul Rat.inv Rat.add Rat.sub in
/-- Evaluation of C7 on a concrete bounce sequence touching the diffuse,
microfacet-glass (entering transmission) and subsurface-diffusion mask
updates. -/
theorem C7_mask_starts_at_one_and_stays_nonneg_witness :
    maskInit = ⟨1, 1, 1⟩ ∧
    nonneg3 (maskAfter
      [BounceEvent.diff vec3One 1,
       BounceEvent.glassMicro vec3One vec3One false false (7 / 5),
       BounceEvent.subsurfaceDiffusion vec3One vec3One 1 1 (1 / 2)]) :=
  C7_mask_starts_at_one_and_stays_nonneg
    [BounceEvent.diff vec3One 1,
     BounceEvent.glassMicro vec3One vec3One false false (7 / 5),
     BounceEvent.subsurfaceDiffusion vec3One vec3One 1 1 (1 / 2)]
    (by intro e he; fin_cases he <;> decide)

/-! ## The medium id never changes (claim C8) -/

theorem mediumToggle_self (medium : Int) (sel : Bool) :
    mediumToggle airMediumConst objMediumConst medium sel = medium := by
  simp [mediumToggle, airMediumConst, objMediumConst]

theorem mediumStep_id (medium : Int) (e : MediumEvent) : mediumStep medium e = medium := by
  cases e <;> simp [mediumStep, mediumToggle_self]

/-- Claim C8: `objMedium` is the `MEDIUM_NO` air sentinel (initialized once,
never reassigned in the kernel) and equals `airMedium`, so every guarded
medium toggle leaves `medium` unchanged: the active medium id equals
`MEDIUM_NO` after every sequence of bounce events, and the
participating-media branch guard `medium != MEDIUM_NO` never holds. -/
theorem C8_medium_stays_air_and_media_branch_dead (events : List MediumEvent) :
    airMediumConst = MEDIUM_NO ∧ objMediumConst = MEDIUM_NO ∧
    mediumAfter events = MEDIUM_NO ∧ ¬ (mediumAfter events ≠ MEDIUM_NO) := by
  have h : ∀ (l : List MediumEvent) (m : Int), l.foldl mediumStep m = m := by
    intro l
    induction l with
    | nil => intro m; rfl
    | cons e rest ih =>
      intro m
      simp only [List.foldl_cons, mediumStep_id]
      exact ih m
  refine ⟨rfl, rfl, h events MEDIUM_NO, ?_⟩
  intro hne
  exact hne (h events MEDIUM_NO)
